import Mathlib

/-!
Shallow embedding of the BookTrack API backend (`backend/main.py`), a FastAPI
service exposing `/healthz`, `/readyz`, `/startup`, `/books` and `/metrics`.

Modelling conventions:
* JSON payloads are `Value`s; a handler yields `Except HTTPException Value`,
  and the framework renders an `HTTPException e` as status `e.status_code`
  with body `{"detail": e.detail}` (`toResponse`).
* Database interactions are parameters: the outcome of the `SELECT 1;`
  round-trip in `/readyz` is an `Except Unit Unit`, and the outcome of
  `SELECT title, id FROM books;` in `/books` is an `Except Unit (List Row)`
  (the rows the database returns, in its return order).  An `Except.error`
  models any exception raised while leasing a connection or executing the
  query.
* The `db_connection_failures_total` counter is threaded through the
  handlers that touch it as an explicit `Nat`.
* `app.state` is an `AppState`: `pool_present` models `hasattr(app.state,
  "pool")`, and `is_loaded : Option Bool` models the attribute with
  `getattr(app.state, "is_loaded", False)` semantics (absence = `none`).
-/

/-- A JSON-like value, enough for the service's payloads. -/
inductive Value where
  | str : String → Value
  | int : Int → Value
  | obj : List (String × Value) → Value
  | arr : List Value → Value

/-- Look a key up in a JSON object; `none` on non-objects or missing keys. -/
def Value.getField : Value → String → Option Value
  | .obj fs, k => List.lookup k fs
  | _, _ => none

/-- Model of `fastapi.HTTPException(status_code=..., detail=...)`. -/
structure HTTPException where
  status_code : Nat
  detail : String

/-- An HTTP response: status code and JSON body. -/
structure Response where
  status_code : Nat
  body : Value

/-- FastAPI's rendering of a handler outcome: a returned value becomes a 200
response with that body, a raised `HTTPException e` becomes a response with
status `e.status_code` and body `{"detail": e.detail}`. -/
def toResponse : Except HTTPException Value → Response
  | .ok v => ⟨200, v⟩
  | .error e => ⟨e.status_code, .obj [("detail", .str e.detail)]⟩

/-- One row of the `books` table: its `title` and `id` columns. -/
structure Row where
  title : String
  id : Int
deriving DecidableEq

/-- The `app.state` object: whether the `pool` attribute is set, and the
`is_loaded` attribute (`none` when the attribute is absent). -/
structure AppState where
  pool_present : Bool
  is_loaded : Option Bool
deriving DecidableEq

/-- Handler `healthz`: `return {"status": "ok"}` — a constant, no I/O, no state. -/
def healthz : Except HTTPException Value :=
  .ok (.obj [("status", .str "ok")])

/-- Handler `readyz`: if `app.state` has no `pool` attribute, raise 503
"Pool not initialized"; otherwise run `SELECT 1;` over a leased connection,
returning `{"status": "ready"}` on success; on any exception increment
`DB_FAILURES` and raise 503 "Database not ready". -/
def readyz (pool_present : Bool) (round_trip : Except Unit Unit)
    (db_failures : Nat) : Except HTTPException Value × Nat :=
  if !pool_present then
    (.error ⟨503, "Pool not initialized"⟩, db_failures)
  else
    match round_trip with
    | .ok _ => (.ok (.obj [("status", .str "ready")]), db_failures)
    | .error _ => (.error ⟨503, "Database not ready"⟩, db_failures + 1)

/-- Handler `startup`: 503 "Initializing" unless `getattr(app.state, "is_loaded",
False)` is truthy, else `{"status": "started"}`. -/
def startup (is_loaded : Option Bool) : Except HTTPException Value :=
  if !(is_loaded.getD false) then
    .error ⟨503, "Initializing"⟩
  else
    .ok (.obj [("status", .str "started")])

/-- The body `list_books` builds from the fetched rows:
`[{"title": r[0], "id": r[1]} for r in rows]` where each row of
`SELECT title, id FROM books;` is `(title, id)`. -/
def booksBody (rows : List Row) : List Value :=
  rows.map (fun r => .obj [("title", .str r.title), ("id", .int r.id)])

/-- Handler `list_books`: lease a connection, run `SELECT title, id FROM books;`,
return the mapped rows; on any exception increment `DB_FAILURES` and raise
500 "Failed to fetch books". -/
def list_books (fetch : Except Unit (List Row)) (db_failures : Nat) :
    Except HTTPException Value × Nat :=
  match fetch with
  | .ok rows => (.ok (.arr (booksBody rows)), db_failures)
  | .error _ => (.error ⟨500, "Failed to fetch books"⟩, db_failures + 1)

/-- Semantics of `os.getenv(k)` interpolated into an f-string: an unset variable prints as
the string `"None"`. -/
def ofEnv : Option String → String
  | some s => s
  | none => "None"

/-- Constant `DB_CONN_STR`: the conninfo f-string built at import time, one
`"key=value "` chunk per line of the source, ending with the fixed
`connect_timeout=2`.  `env` is the process environment (`os.getenv`). -/
def DB_CONN_STR (env : String → Option String) : String :=
  "host=" ++ ofEnv (env "DB_HOST") ++ " " ++
  "port=" ++ (env "DB_PORT").getD "5432" ++ " " ++
  "dbname=" ++ ofEnv (env "DB_NAME") ++ " " ++
  "user=" ++ ofEnv (env "DB_USER") ++ " " ++
  "password=" ++ ofEnv (env "DB_PASSWORD") ++ " " ++
  "connect_timeout=2"

/-- The arguments `lifespan` passes to `AsyncConnectionPool`. -/
structure PoolConfig where
  conninfo : String
  min_size : Nat
  max_size : Nat
  open_on_create : Bool
deriving DecidableEq

/-- The pool configuration `lifespan` constructs:
`AsyncConnectionPool(conninfo=DB_CONN_STR, min_size=1, max_size=5, open=True)`. -/
def lifespan_pool (env : String → Option String) : PoolConfig :=
  { conninfo := DB_CONN_STR env, min_size := 1, max_size := 5,
    open_on_create := true }

/-- The sequence of `app.state` values produced by `lifespan`'s startup
section, given whether the `AsyncConnectionPool` constructor returns
normally: first `is_loaded = False` is set, then (when construction does not
throw) the `pool` attribute appears, then `is_loaded = True`.  When the
constructor throws, the sequence stops after the first assignment. -/
def lifespan_trace (ctor_ok : Bool) : List AppState :=
  if ctor_ok then
    [⟨false, some false⟩, ⟨true, some false⟩, ⟨true, some true⟩]
  else
    [⟨false, some false⟩]

/-- The `app.state` after `lifespan` reaches `yield` (only when the pool
constructor returned normally). -/
def lifespan_state : AppState := ⟨true, some true⟩

/-- Effect of `Counter.labels(method, endpoint, status).inc()` on
`http_requests_total`: bump the labelled cell, leave every other cell. -/
def REQUEST_COUNT_inc (c : String → String → Nat → Nat)
    (method endpoint : String) (status : Nat) : String → String → Nat → Nat :=
  fun m e s => if m = method ∧ e = endpoint ∧ s = status then c m e s + 1 else c m e s

/-- Effect of `Histogram.labels(method, endpoint).observe(duration)` on
`http_request_duration_seconds`: record the duration into the labelled
series, leave every other series. -/
def REQUEST_LATENCY_observe (h : String → String → List ℚ)
    (method endpoint : String) (duration : ℚ) : String → String → List ℚ :=
  fun m e => if m = method ∧ e = endpoint then duration :: h m e else h m e

/-- The two labelled request metrics the middleware writes. -/
structure Metrics where
  request_count : String → String → Nat → Nat
  request_latency : String → String → List ℚ

/-- Middleware `prometheus_middleware`: run the downstream chain (`call_next`, which
FastAPI has already turned into a `Response` — a raised `HTTPException`
reaches the middleware as its rendered error response), then increment
`REQUEST_COUNT` at `{method, endpoint, status}` and observe the elapsed
`duration` into `REQUEST_LATENCY` at `{method, endpoint}`, and pass the
response through unchanged. -/
def prometheus_middleware (method endpoint : String) (duration : ℚ)
    (call_next : Response) (m : Metrics) : Response × Metrics :=
  (call_next,
   { request_count :=
       REQUEST_COUNT_inc m.request_count method endpoint call_next.status_code,
     request_latency :=
       REQUEST_LATENCY_observe m.request_latency method endpoint duration })

/-- The routes the service registers. -/
inductive Route where
  | healthz | readyz | startup | books | metrics
deriving DecidableEq

/-- Everything outside the handlers that determines one request's outcome:
the current `app.state`, the outcome of the `SELECT 1;` round-trip (were it
attempted) and the outcome of the books query (were it attempted). -/
structure Env where
  state : AppState
  round_trip : Except Unit Unit
  fetch : Except Unit (List Row)

/-- The `/metrics` body, restricted to the modelled `DB_FAILURES` counter:
`generate_latest` serialises the registry, reading it without writing. -/
def metricsBody (db_failures : Nat) : Value :=
  .obj [("db_connection_failures_total", .int db_failures)]

/-- Dispatch one request to its handler, threading the `DB_FAILURES`
counter. -/
def handle (r : Route) (env : Env) (db_failures : Nat) :
    Except HTTPException Value × Nat :=
  match r with
  | .healthz => (healthz, db_failures)
  | .readyz => readyz env.state.pool_present env.round_trip db_failures
  | .startup => (startup env.state.is_loaded, db_failures)
  | .books => list_books env.fetch db_failures
  | .metrics => (.ok (metricsBody db_failures), db_failures)

/-- Spec-side description of the database configuration: the recognized
options `DB_HOST`, `DB_PORT` (default "5432"), `DB_NAME`, `DB_USER`,
`DB_PASSWORD`, and the fixed 2-second connection timeout. -/
structure ConnInfo where
  host : String
  port : String
  dbname : String
  user : String
  password : String
  connect_timeout : Nat

/-- Spec-side: the configuration the spec says is read from the
environment, with the `DB_PORT` default and the fixed timeout. -/
def connInfoSpec (env : String → Option String) : ConnInfo :=
  { host := ofEnv (env "DB_HOST"),
    port := (env "DB_PORT").getD "5432",
    dbname := ofEnv (env "DB_NAME"),
    user := ofEnv (env "DB_USER"),
    password := ofEnv (env "DB_PASSWORD"),
    connect_timeout := 2 }

/-- Render a `ConnInfo` as a space-separated `key=value` conninfo string. -/
def ConnInfo.render (c : ConnInfo) : String :=
  "host=" ++ c.host ++ " " ++
  "port=" ++ c.port ++ " " ++
  "dbname=" ++ c.dbname ++ " " ++
  "user=" ++ c.user ++ " " ++
  "password=" ++ c.password ++ " " ++
  "connect_timeout=" ++ toString c.connect_timeout

/-! ## Theorems -/

/-- C1: for every state of the books table, a successful `GET /books`
returns exactly one `{id, title}` element per returned row — same length,
and at every index the element's `id` and `title` fields equal that row's
`id` and `title` columns — with no duplication or omission, in the
database's return order. -/
theorem list_books_success_exact (rows : List Row) (db_failures : Nat) :
    list_books (.ok rows) db_failures = (.ok (.arr (booksBody rows)), db_failures) ∧
    (booksBody rows).length = rows.length ∧
    (∀ i : Nat, ((booksBody rows)[i]?.bind (fun v => v.getField "id"))
        = (rows[i]?.map fun r => Value.int r.id)) ∧
    (∀ i : Nat, ((booksBody rows)[i]?.bind (fun v => v.getField "title"))
        = (rows[i]?.map fun r => Value.str r.title)) := by
  refine ⟨rfl, by simp [booksBody], ?_, ?_⟩ <;>
    · intro i
      simp only [booksBody, List.getElem?_map]
      cases rows[i]? with
      | none => rfl
      | some r => simp [Value.getField, List.lookup]

/-- C2: on every failure of the books query or connection lease,
`GET /books` renders HTTP 500 with body `{"detail": "Failed to fetch
books"}`, increments `db_connection_failures_total` by exactly 1, and
returns no (partial) list of books. -/
theorem list_books_failure (db_failures : Nat) :
    list_books (.error ()) db_failures
      = (.error ⟨500, "Failed to fetch books"⟩, db_failures + 1) ∧
    toResponse (list_books (.error ()) db_failures).1
      = ⟨500, .obj [("detail", .str "Failed to fetch books")]⟩ ∧
    (∀ v, (list_books (.error ()) db_failures).1 ≠ .ok v) := by
  refine ⟨rfl, rfl, ?_⟩
  intro v h
  simp [list_books] at h

/-- C3: `GET /readyz` with no pool renders 503 "Pool not initialized"; with
a pool and a successful `SELECT 1;` round-trip it returns 200
`{"status": "ready"}`; and on any failure of the lease or round-trip it
increments the db-failure counter by 1 and renders 503 "Database not
ready" — a single error kind for every failure cause. -/
theorem readyz_cases (round_trip : Except Unit Unit) (db_failures : Nat) :
    readyz false round_trip db_failures
      = (.error ⟨503, "Pool not initialized"⟩, db_failures) ∧
    toResponse (readyz false round_trip db_failures).1
      = ⟨503, .obj [("detail", .str "Pool not initialized")]⟩ ∧
    readyz true (.ok ()) db_failures
      = (.ok (.obj [("status", .str "ready")]), db_failures) ∧
    toResponse (readyz true (.ok ()) db_failures).1
      = ⟨200, .obj [("status", .str "ready")]⟩ ∧
    readyz true (.error ()) db_failures
      = (.error ⟨503, "Database not ready"⟩, db_failures + 1) ∧
    toResponse (readyz true (.error ()) db_failures).1
      = ⟨503, .obj [("detail", .str "Database not ready")]⟩ := by
  exact ⟨rfl, rfl, rfl, rfl, rfl, rfl⟩

/-- C5: `GET /startup` renders 503 `{"detail": "Initializing"}` whenever the
`is_loaded` flag is absent or false, and 200 `{"status": "started"}` when it
is true; success needs no database round-trip — after `lifespan` completes,
`/startup` succeeds even when every round-trip and fetch would fail. -/
theorem startup_cases :
    startup none = .error ⟨503, "Initializing"⟩ ∧
    startup (some false) = .error ⟨503, "Initializing"⟩ ∧
    toResponse (startup (some false))
      = ⟨503, .obj [("detail", .str "Initializing")]⟩ ∧
    startup (some true) = .ok (.obj [("status", .str "started")]) ∧
    toResponse (startup (some true))
      = ⟨200, .obj [("status", .str "started")]⟩ ∧
    (∀ (rt : Except Unit Unit) (db_failures : Nat),
      handle .startup ⟨lifespan_state, rt, .error ()⟩ db_failures
        = (.ok (.obj [("status", .str "started")]), db_failures)) := by
  exact ⟨rfl, rfl, rfl, rfl, rfl, fun _ _ => rfl⟩

/-- C6: `GET /healthz` always renders 200 `{"status": "ok"}`, never fails,
and its outcome and the db-failure counter are the same in every
environment — no I/O outcome or pool state enters it. -/
theorem healthz_always_ok :
    toResponse healthz = ⟨200, .obj [("status", .str "ok")]⟩ ∧
    (∀ e, healthz ≠ .error e) ∧
    (∀ (env : Env) (db_failures : Nat),
      handle .healthz env db_failures = (healthz, db_failures)) := by
  refine ⟨rfl, ?_, fun _ _ => rfl⟩
  intro e h
  simp [healthz] at h

/-- C4: for every request — the downstream outcome being any returned value
or any raised `HTTPException`, rendered to a response before it reaches the
middleware — `prometheus_middleware` passes the response through unchanged,
increments `http_requests_total` at `{method, endpoint, status}` by exactly
one (leaving every other cell), and records the elapsed duration into
`http_request_duration_seconds` at `{method, endpoint}` (leaving every
other series), identically for error and success responses. -/
theorem middleware_records_every_request (method endpoint : String)
    (duration : ℚ) (outcome : Except HTTPException Value) (m : Metrics) :
    (prometheus_middleware method endpoint duration (toResponse outcome) m).1
      = toResponse outcome ∧
    ((prometheus_middleware method endpoint duration (toResponse outcome) m).2).request_count
        method endpoint (toResponse outcome).status_code
      = m.request_count method endpoint (toResponse outcome).status_code + 1 ∧
    (∀ me ep st, ¬(me = method ∧ ep = endpoint ∧ st = (toResponse outcome).status_code) →
      ((prometheus_middleware method endpoint duration (toResponse outcome) m).2).request_count me ep st
        = m.request_count me ep st) ∧
    ((prometheus_middleware method endpoint duration (toResponse outcome) m).2).request_latency
        method endpoint
      = duration :: m.request_latency method endpoint ∧
    (∀ me ep, ¬(me = method ∧ ep = endpoint) →
      ((prometheus_middleware method endpoint duration (toResponse outcome) m).2).request_latency me ep
        = m.request_latency me ep) := by
  refine ⟨rfl, ?_, ?_, ?_, ?_⟩
  · simp [prometheus_middleware, REQUEST_COUNT_inc]
  · intro me ep st h
    simp only [prometheus_middleware, REQUEST_COUNT_inc]
    rw [if_neg h]
  · simp [prometheus_middleware, REQUEST_LATENCY_observe]
  · intro me ep h
    simp only [prometheus_middleware, REQUEST_LATENCY_observe]
    rw [if_neg h]

/-- Witness for C4: a concrete error outcome (the 500 from `/books`) over
zeroed metrics: the labelled counter cell becomes 1, a differently-labelled
cell stays 0, and the latency series records the duration. -/
theorem middleware_records_witness :
    ((prometheus_middleware "GET" "/books" (1/2)
        (toResponse (.error ⟨500, "Failed to fetch books"⟩))
        ⟨fun _ _ _ => 0, fun _ _ => []⟩).2).request_count "GET" "/books" 500 = 1 ∧
    ((prometheus_middleware "GET" "/books" (1/2)
        (toResponse (.error ⟨500, "Failed to fetch books"⟩))
        ⟨fun _ _ _ => 0, fun _ _ => []⟩).2).request_count "GET" "/healthz" 500 = 0 ∧
    ((prometheus_middleware "GET" "/books" (1/2)
        (toResponse (.error ⟨500, "Failed to fetch books"⟩))
        ⟨fun _ _ _ => 0, fun _ _ => []⟩).2).request_latency "GET" "/books" = [1/2] := by
  have h := middleware_records_every_request "GET" "/books" (1/2)
    (.error ⟨500, "Failed to fetch books"⟩) ⟨fun _ _ _ => 0, fun _ _ => []⟩
  refine ⟨h.2.1, ?_, h.2.2.2.1⟩
  exact h.2.2.1 "GET" "/healthz" 500 (by simp)

/-- C7: two `GET /books` calls over an unchanged table — the database
returning the same rows up to order — succeed with bodies that are
permutations of each other, hence the same set of elements. -/
theorem list_books_idempotent (rows1 rows2 : List Row)
    (h : rows1.Perm rows2) (f1 f2 : Nat) :
    (list_books (.ok rows1) f1).1 = .ok (.arr (booksBody rows1)) ∧
    (list_books (.ok rows2) f2).1 = .ok (.arr (booksBody rows2)) ∧
    (booksBody rows1).Perm (booksBody rows2) ∧
    (∀ v, v ∈ booksBody rows1 ↔ v ∈ booksBody rows2) := by
  have hp : (booksBody rows1).Perm (booksBody rows2) := h.map _
  exact ⟨rfl, rfl, hp, fun v => hp.mem_iff⟩

/-- Witness for C7: a two-row table returned in the two opposite orders. -/
theorem list_books_idempotent_witness :
    ([⟨"a", 1⟩, ⟨"b", 2⟩] : List Row).Perm [⟨"b", 2⟩, ⟨"a", 1⟩] ∧
    (booksBody [⟨"a", 1⟩, ⟨"b", 2⟩]).Perm (booksBody [⟨"b", 2⟩, ⟨"a", 1⟩]) := by
  have hperm : ([⟨"a", 1⟩, ⟨"b", 2⟩] : List Row).Perm [⟨"b", 2⟩, ⟨"a", 1⟩] :=
    List.Perm.swap _ _ _
  exact ⟨hperm,
    (list_books_idempotent [⟨"a", 1⟩, ⟨"b", 2⟩] [⟨"b", 2⟩, ⟨"a", 1⟩] hperm 0 0).2.2.1⟩

/-- C8: `DB_CONN_STR` renders exactly the spec's configuration — the five
environment variables with `DB_PORT` defaulting to "5432" and the timeout
fixed at 2 — and `lifespan` creates the pool over it with min size 1 and
max size 5 for every environment (so neither is externally configurable);
an unset `DB_PORT` yields the same string as `DB_PORT=5432`. -/
theorem db_config_spec (env : String → Option String) :
    DB_CONN_STR env = (connInfoSpec env).render ∧
    (connInfoSpec env).connect_timeout = 2 ∧
    (lifespan_pool env).conninfo = DB_CONN_STR env ∧
    (lifespan_pool env).min_size = 1 ∧
    (lifespan_pool env).max_size = 5 ∧
    (env "DB_PORT" = none →
      DB_CONN_STR env
        = DB_CONN_STR (fun k => if k = "DB_PORT" then some "5432" else env k)) := by
  refine ⟨?_, rfl, rfl, rfl, rfl, ?_⟩
  · have htail : ("connect_timeout=" ++ toString (2 : Nat) : String)
        = "connect_timeout=2" := rfl
    simp only [DB_CONN_STR, ConnInfo.render, connInfoSpec, String.append_assoc, htail]
  · intro h
    simp [DB_CONN_STR, h]

/-- Witness for C8: the empty environment — every variable unset — gives
the same conninfo as setting only `DB_PORT=5432`, and the fixed pool
sizes. -/
theorem db_config_spec_witness :
    ((fun _ : String => (none : Option String)) "DB_PORT" = none) ∧
    DB_CONN_STR (fun _ => none)
      = DB_CONN_STR (fun k => if k = "DB_PORT" then some "5432" else none) ∧
    (lifespan_pool (fun _ => none)).min_size = 1 ∧
    (lifespan_pool (fun _ => none)).max_size = 5 := by
  refine ⟨rfl, ?_, (db_config_spec (fun _ => none)).2.2.2.1,
    (db_config_spec (fun _ => none)).2.2.2.2.1⟩
  exact (db_config_spec (fun _ => none)).2.2.2.2.2 rfl

/-- C9: `GET /readyz` yields "Pool not initialized" exactly when the `pool`
attribute is absent; its outcome depends only on pool presence and the
round-trip, never on `is_loaded`; and at `lifespan`'s intermediate state —
pool constructed, flag still false — `/readyz` can return 200 ready while
`/startup` still returns 503 Initializing. -/
theorem readyz_pool_iff_not_loaded (env : Env) (db_failures : Nat) :
    ((handle .readyz env db_failures).1 = .error ⟨503, "Pool not initialized"⟩
      ↔ env.state.pool_present = false) ∧
    (∀ env2 : Env, env2.state.pool_present = env.state.pool_present →
      env2.round_trip = env.round_trip →
      handle .readyz env2 db_failures = handle .readyz env db_failures) ∧
    ((⟨true, some false⟩ : AppState) ∈ lifespan_trace true) ∧
    (handle .readyz ⟨⟨true, some false⟩, .ok (), .error ()⟩ db_failures
      = (.ok (.obj [("status", .str "ready")]), db_failures)) ∧
    (handle .startup ⟨⟨true, some false⟩, .ok (), .error ()⟩ db_failures
      = (.error ⟨503, "Initializing"⟩, db_failures)) := by
  obtain ⟨⟨pp, il⟩, rt, f⟩ := env
  refine ⟨?_, ?_, by simp [lifespan_trace], rfl, rfl⟩
  · cases pp <;> cases rt <;> simp [handle, readyz]
  · intro env2 h1 h2
    show readyz env2.state.pool_present env2.round_trip db_failures
      = readyz pp rt db_failures
    rw [show env2.state.pool_present = pp from h1, show env2.round_trip = rt from h2]

/-- Witness for C9: with the pool attribute absent `/readyz` yields the
"Pool not initialized" error, and changing only `is_loaded` (and the
unused fetch outcome) leaves `/readyz`'s outcome unchanged. -/
theorem readyz_pool_iff_witness :
    (handle .readyz ⟨⟨false, some true⟩, .ok (), .ok []⟩ 0).1
      = .error ⟨503, "Pool not initialized"⟩ ∧
    handle .readyz ⟨⟨true, none⟩, .ok (), .error ()⟩ 0
      = handle .readyz ⟨⟨true, some true⟩, .ok (), .ok []⟩ 0 := by
  have h := readyz_pool_iff_not_loaded ⟨⟨true, some true⟩, .ok (), .ok []⟩ 0
  have h2 := readyz_pool_iff_not_loaded ⟨⟨false, some true⟩, .ok (), .ok []⟩ 0
  exact ⟨h2.1.mpr rfl, h.2.1 ⟨⟨true, none⟩, .ok (), .error ()⟩ rfl rfl⟩

/-- C10: every handler either leaves `db_connection_failures_total`
unchanged or bumps it by exactly 1; every successful outcome leaves it
unchanged; `/healthz`, `/startup` and `/metrics` always leave it unchanged;
and an increment happens only in the exception branch of `/readyz` (pool
present, round-trip failed) or of `/books` (fetch failed). -/
theorem db_failures_frame (r : Route) (env : Env) (db_failures : Nat) :
    (∀ v, (handle r env db_failures).1 = .ok v →
      (handle r env db_failures).2 = db_failures) ∧
    ((r = .healthz ∨ r = .startup ∨ r = .metrics) →
      (handle r env db_failures).2 = db_failures) ∧
    ((handle r env db_failures).2 = db_failures ∨
      (handle r env db_failures).2 = db_failures + 1) ∧
    ((handle r env db_failures).2 = db_failures + 1 →
      (r = .readyz ∧ env.state.pool_present = true ∧ env.round_trip = .error ()) ∨
      (r = .books ∧ env.fetch = .error ())) := by
  obtain ⟨⟨pp, il⟩, rt, f⟩ := env
  cases r <;> cases pp <;> cases rt <;> cases f <;>
    refine ⟨?_, ?_, ?_, ?_⟩ <;>
      simp [handle, readyz, list_books, startup, healthz, metricsBody]

/-- Witness for C10: concrete successes of `/healthz`, `/readyz` and
`/books` leave the counter at its prior value, and the one concrete
increment comes from `/readyz`'s failed round-trip. -/
theorem db_failures_frame_witness :
    (handle .healthz ⟨⟨true, some true⟩, .ok (), .ok []⟩ 5).2 = 5 ∧
    (handle .readyz ⟨⟨true, some true⟩, .ok (), .ok []⟩ 3).2 = 3 ∧
    (handle .books ⟨⟨true, some true⟩, .ok (), .ok []⟩ 7).2 = 7 ∧
    ((Route.readyz = .readyz ∧
        (⟨⟨true, some true⟩, .error (), .ok []⟩ : Env).state.pool_present = true ∧
        (⟨⟨true, some true⟩, .error (), .ok []⟩ : Env).round_trip = .error ()) ∨
      (Route.readyz = .books ∧
        (⟨⟨true, some true⟩, .error (), .ok []⟩ : Env).fetch = .error ())) := by
  exact ⟨(db_failures_frame .healthz ⟨⟨true, some true⟩, .ok (), .ok []⟩ 5).2.1
      (Or.inl rfl),
    (db_failures_frame .readyz ⟨⟨true, some true⟩, .ok (), .ok []⟩ 3).1 _ rfl,
    (db_failures_frame .books ⟨⟨true, some true⟩, .ok (), .ok []⟩ 7).1 _ rfl,
    (db_failures_frame .readyz ⟨⟨true, some true⟩, .error (), .ok []⟩ 0).2.2.2 rfl⟩
